import Mathlib

/-!
Shallow embedding of the transform core of `segy_viewer.py` (SEGY_Viewer):
coordinate normalization and navigation geometry (`_create_cdp_shapefile`,
`_save_shapefile_for_file`, `_format_datetime_from_trace`,
`_is_utm_coordinates`), amplitude-range computation (`plot_segy_data`,
`_save_plot_for_file`, `_apply_std_dev_clipping`) and the batch loop
(`batch_process`). Numeric header values and coordinates are modelled as
rationals; absent header fields as `Option`.
-/

namespace SegyViewer

/-- Python `int(q)`: truncation toward zero. -/
def pyTrunc (q : ℚ) : ℤ := if q < 0 then ⌈q⌉ else ⌊q⌋

/-- Decimal rendering of a natural number, as Python `str`. -/
def natStr (n : ℕ) : String := toString n

/-- Python `str(n)` for an integer (a leading minus sign for negatives). -/
def intStr (n : ℤ) : String := if n < 0 then "-" ++ natStr n.natAbs else natStr n.natAbs

/-- Left-pad a string with zeros up to width `w`. -/
def padZeros (w : ℕ) (s : String) : String :=
  if s.length < w then String.mk (List.replicate (w - s.length) '0') ++ s else s

/-- Python `f"{n:0wd}"`: sign-aware zero padding of an integer. -/
def fmtInt (w : ℕ) (n : ℤ) : String :=
  if n < 0 then "-" ++ padZeros (w - 1) (natStr n.natAbs) else padZeros w (natStr n.natAbs)

/-- One trace-header record: the fields the transform core reads
(`trace_data.get(...)` in the source). `none` models an absent value. -/
structure Trace where
  sourceX : Option ℚ := none
  sourceY : Option ℚ := none
  groupX : Option ℚ := none
  groupY : Option ℚ := none
  cdpX : Option ℚ := none
  cdpY : Option ℚ := none
  sourceGroupScalar : Option ℚ := none
  coordinateUnits : Option ℚ := none
  cdp : Option ℚ := none
  traceSequenceLine : Option ℚ := none
  offset : Option ℚ := none
  sourceSurfaceElevation : Option ℚ := none
  receiverGroupElevation : Option ℚ := none
  year : Option ℚ := none
  dayOfYear : Option ℚ := none
  hourOfDay : Option ℚ := none
  minuteOfHour : Option ℚ := none
  secondOfMinute : Option ℚ := none
  deriving Repr, DecidableEq, Inhabited

/-- Three-tier raw coordinate selection: SourceX/SourceY, then GroupX/GroupY,
then CDP_X/CDP_Y; a pair is taken only when both members are present
(source lines 2969-2985 and 2747-2760). -/
def chooseRawXY (t : Trace) : Option (ℚ × ℚ) :=
  match t.sourceX, t.sourceY with
  | some x, some y => some (x, y)
  | _, _ =>
    match t.groupX, t.groupY with
    | some x, some y => some (x, y)
    | _, _ =>
      match t.cdpX, t.cdpY with
      | some x, some y => some (x, y)
      | _, _ => none

/-- The near-zero test threshold `1e-6` used by both shapefile paths. -/
def coordEps : ℚ := 1 / 1000000

/-- Raw coordinate survival: the chosen pair, unless both members are within
`1e-6` of zero (uninitialized-coordinate convention, lines 2984-2989). -/
def surviveRaw (t : Trace) : Option (ℚ × ℚ) :=
  match chooseRawXY t with
  | none => none
  | some (x, y) => if |x| < coordEps ∧ |y| < coordEps then none else some (x, y)

/-- SourceGroupScalar application (lines 2995-3005 and 2771-2781):
positive multiplies, negative divides by the absolute value, zero is a no-op. -/
def applyScalar (s : ℚ) (p : ℚ × ℚ) : ℚ × ℚ :=
  if s > 0 then (p.1 * s, p.2 * s)
  else if s < 0 then (p.1 / |s|, p.2 / |s|)
  else (p.1, p.2)

/-- CoordinateUnits conversion (lines 3007-3022 and 2783-2796): code 2
(arc-seconds) divides by 3600; codes 1, 3, 4 and anything unrecognized pass
through unchanged. -/
def unitConvert (cu : ℚ) (p : ℚ × ℚ) : ℚ × ℚ :=
  if cu = 1 then p
  else if cu = 2 then (p.1 / 3600, p.2 / 3600)
  else if cu = 3 then p
  else if cu = 4 then p
  else p

/-- Embedding of `_format_datetime_from_trace` (lines 2695-2724): `None` when year or
day-of-year is absent; a two-digit year is disambiguated around 50; the time
part appears only when hour and minute are both present, with seconds
defaulting to "00". -/
def formatDatetimeFromTrace (t : Trace) : Option String :=
  match t.year, t.dayOfYear with
  | some year, some day =>
    let year := if year < 100 then (if year < 50 then 2000 + year else 1900 + year) else year
    let base := intStr (pyTrunc year) ++ "-" ++ fmtInt 3 (pyTrunc day)
    match t.hourOfDay, t.minuteOfHour with
    | some h, some m =>
      match t.secondOfMinute with
      | some s =>
        some (base ++ " " ++ fmtInt 2 (pyTrunc h) ++ ":" ++ fmtInt 2 (pyTrunc m)
          ++ ":" ++ fmtInt 2 (pyTrunc s))
      | none =>
        some (base ++ " " ++ fmtInt 2 (pyTrunc h) ++ ":" ++ fmtInt 2 (pyTrunc m) ++ ":00")
    | _, _ => some base
  | _, _ => none

/-- One emitted navigation point record (the attribute dictionary appended to
`cdp_data`). -/
structure PointRec where
  x : ℚ
  y : ℚ
  cdpNum : ℚ
  traceNum : ℚ
  traceSeq : ℚ
  coordUnit : ℚ
  scalar : ℚ
  offset : ℚ
  elevation : ℚ
  datetime : String
  deriving Repr, DecidableEq, Inhabited

/-- Loop body of `_create_cdp_shapefile` (lines 2966-3054) for the trace at
position `i`: per-trace CoordinateUnits and SourceGroupScalar, scalar applied
then unit conversion; `none` when the trace is skipped. -/
def processTraceInteractive (i : ℕ) (t : Trace) : Option PointRec :=
  match surviveRaw t with
  | none => none
  | some (x, y) =>
    let cu := t.coordinateUnits.getD 2
    let sg := t.sourceGroupScalar.getD 1
    let p := unitConvert cu (applyScalar sg (x, y))
    some { x := p.1, y := p.2,
           cdpNum := t.cdp.getD (i + 1),
           traceNum := (i : ℚ) + 1,
           traceSeq := t.traceSequenceLine.getD (i + 1),
           coordUnit := cu, scalar := sg,
           offset := t.offset.getD 0,
           elevation := t.receiverGroupElevation.getD 0,
           datetime := (formatDatetimeFromTrace t).getD "" }

/-- The polyline record of `_create_cdp_shapefile` (lines 3134-3159): start
and end date/time read from the first and last trace of the whole header
table. -/
structure LineRec where
  numPoints : ℕ
  startTrace : ℚ
  endTrace : ℚ
  startDT : String
  endDT : String
  coords : List (ℚ × ℚ)
  deriving Repr, DecidableEq

/-- Output of the interactive shapefile builder: point records plus the
polyline when more than one point survives. -/
structure CdpOutput where
  points : List PointRec
  line : Option LineRec
  deriving Repr, DecidableEq

/-- Error message raised at line 3069 when coordinates exist but are zero. -/
def msgZeroCoords : String :=
  "No valid coordinate data found in trace headers. Coordinates appear to be uninitialized (near zero values). This SEGY file may not contain spatial coordinate information."

/-- Error message raised at line 3071. -/
def msgNoCoords : String :=
  "No valid coordinate data found in trace headers. Please check that SourceX/SourceY, GroupX/GroupY, or CDP_X/CDP_Y fields contain valid coordinate values."

/-- The zero-coordinate probe of lines 3057-3066: do any of the first five
traces carry a present but near-zero SourceX/SourceY pair? -/
def hasZeroCoords (traces : List Trace) : Bool :=
  (traces.take 5).any fun t =>
    match t.sourceX, t.sourceY with
    | some x, some y => decide (|x| < coordEps ∧ |y| < coordEps)
    | _, _ => false

/-- Embedding of `_create_cdp_shapefile` (lines 2948-3216) restricted to its geometry
content: raises (models `ValueError`) when no trace survives; otherwise the
point records in trace order and, when more than one survives, the polyline
whose start/end timestamps come from the first and last trace of the table. -/
def createCdpShapefile (traces : List Trace) : Except String CdpOutput :=
  let pts := traces.enum.filterMap fun p => processTraceInteractive p.1 p.2
  if pts.isEmpty then
    .error (if hasZeroCoords traces then msgZeroCoords else msgNoCoords)
  else
    .ok { points := pts,
          line :=
            if pts.length > 1 then
              some { numPoints := pts.length,
                     startTrace := (pts.headD default).traceNum,
                     endTrace := (pts.getLastD default).traceNum,
                     startDT := (formatDatetimeFromTrace (traces.headD default)).getD "",
                     endDT := (formatDatetimeFromTrace (traces.getLastD default)).getD "",
                     coords := pts.map fun r => (r.x, r.y) }
            else none }

/-- Record built by the loop body of `_save_shapefile_for_file`
(lines 2803-2815), given the coordinate-unit code `cu` in effect for the
file: scalar applied then unit conversion, integer casts on the attribute
fields as in the source. -/
def mkBatchRecord (cu : ℚ) (i : ℕ) (t : Trace) (x y : ℚ) : PointRec :=
  let sg := t.sourceGroupScalar.getD 1
  let p := unitConvert cu (applyScalar sg (x, y))
  { x := p.1, y := p.2,
    cdpNum := (pyTrunc (t.cdp.getD (i + 1)) : ℚ),
    traceNum := (pyTrunc ((i : ℚ) + 1) : ℚ),
    traceSeq := (pyTrunc (t.traceSequenceLine.getD (i + 1)) : ℚ),
    coordUnit := (pyTrunc cu : ℚ),
    scalar := (pyTrunc sg : ℚ),
    offset := t.offset.getD 0,
    elevation := t.sourceSurfaceElevation.getD 0,
    datetime := (formatDatetimeFromTrace t).getD "" }

/-- The coordinate-extraction loop of `_save_shapefile_for_file`
(lines 2744-2815). State: `cu` is the current `coord_units`, `empty` says
whether `cdp_data` is still empty (the unit code is (re)read from the first
surviving trace only, lines 2765-2767). -/
def shpLoop (ts : List (ℕ × Trace)) (cu : ℚ) (empty : Bool) : List PointRec :=
  match ts with
  | [] => []
  | (i, t) :: rest =>
    match surviveRaw t with
    | none => shpLoop rest cu empty
    | some (x, y) =>
      let cu' := if empty then t.coordinateUnits.getD 2 else cu
      mkBatchRecord cu' i t x y :: shpLoop rest cu' false

/-- The polyline output of the batch path (lines 2836-2870): vertices in
surviving-trace order, start/end date/time from the first and last trace of
the whole table. -/
structure BatchLine where
  startDT : String
  endDT : String
  coords : List (ℚ × ℚ)
  deriving Repr, DecidableEq, Inhabited

/-- Embedding of `_save_shapefile_for_file` (lines 2726-2872) restricted to its geometry
content: `(none, none)` when no trace survives (no raise); the point output
when at least one survives; the line output when more than one survives. -/
def saveShapefileForFile (traces : List Trace) : Option (List PointRec) × Option BatchLine :=
  let recs := shpLoop traces.enum 2 true
  if recs.isEmpty then (none, none)
  else
    (some recs,
     if recs.length > 1 then
       some { startDT := (formatDatetimeFromTrace (traces.headD default)).getD "",
              endDT := (formatDatetimeFromTrace (traces.getLastD default)).getD "",
              coords := recs.map fun r => (r.x, r.y) }
     else none)

/-- Modelled from the spec (refinement target for the batch path): the
records produced when one fixed coordinate-unit code is used for every
surviving trace. -/
def recordsWithUniformUnits (cu : ℚ) (ts : List (ℕ × Trace)) : List PointRec :=
  ts.filterMap fun p =>
    match surviveRaw p.2 with
    | none => none
    | some (x, y) => some (mkBatchRecord cu p.1 p.2 x y)

/-- Embedding of `np.mean` over the flattened sample matrix. -/
def npMean (l : List ℚ) : ℚ := l.sum / l.length

/-- Embedding of `np.std(l) ** 2`: the population variance of the flattened matrix. -/
def npVariance (l : List ℚ) : ℚ := (l.map fun x => (x - npMean l) ^ 2).sum / l.length

/-- Embedding of `_apply_std_dev_clipping` (lines 305-318): clip every sample to
`[mean - k*std, mean + k*std]`. The standard deviation `s` (an irrational
square root in general) is passed in; callers constrain it by
`s ^ 2 = npVariance l` and `0 ≤ s`. -/
def applyStdDevClipping (l : List ℚ) (k s : ℚ) : List ℚ :=
  let m := npMean l
  l.map fun x => min (max x (m - k * s)) (m + k * s)

/-- Embedding of `np.percentile(l, p)` with the default linear-interpolation convention:
virtual index `p/100 * (n-1)` into the ascending sort. -/
def npPercentile (l : List ℚ) (p : ℚ) : ℚ :=
  let s := l.mergeSort fun a b => decide (a ≤ b)
  let rank : ℚ := p / 100 * ((s.length : ℚ) - 1)
  let lo : ℕ := (pyTrunc rank).toNat
  let frac : ℚ := rank - lo
  let a := s.getD lo 0
  let b := s.getD (lo + 1) a
  a + frac * (b - a)

/-- Embedding of `np.min` of a nonempty flattened matrix (0 on an empty list). -/
def pMin : List ℚ → ℚ
  | [] => 0
  | x :: xs => xs.foldl min x

/-- Embedding of `np.max` of a nonempty flattened matrix (0 on an empty list). -/
def pMax : List ℚ → ℚ
  | [] => 0
  | x :: xs => xs.foldl max x

/-- The amplitude-range computation shared by `plot_segy_data`
(lines 251-265) and `_save_plot_for_file` (lines 2633-2646): optional
standard-deviation clipping first, then either the one-sided percentile clip
`(0, percentile)` or the full data range. `s` is the standard deviation of
`l` as in `applyStdDevClipping`. -/
def plotRange (l : List ℚ) (clipPercentile : ℚ) (clipEnabled stdDevEnabled : Bool)
    (stdDevValue s : ℚ) : ℚ × ℚ :=
  let pd := if stdDevEnabled then applyStdDevClipping l stdDevValue s else l
  if clipEnabled then (0, npPercentile pd clipPercentile)
  else (pMin pd, pMax pd)

/-- Embedding of `_is_utm_coordinates` (lines 3218-3241), verbatim boolean structure. -/
def isUtmCoordinates (x y : ℚ) : Bool :=
  let utmXRange := decide (100000 ≤ |x| ∧ |x| ≤ 900000)
  let utmYRange := decide (0 ≤ y ∧ y ≤ 10000000)
  let largeNumbers := decide (|x| > 10000 ∧ y > 10000)
  let reasonablePrecision :=
    decide ((intStr (pyTrunc |x|)).length ≥ 5 ∧ (intStr (pyTrunc y)).length ≥ 5)
  let notDegrees := ! decide (-180 ≤ x ∧ x ≤ 180 ∧ -90 ≤ y ∧ y ≤ 90)
  let invalidSecondsArc := decide (|x| > 648000 ∨ |y| > 648000)
  (utmXRange && utmYRange) ||
    (largeNumbers && reasonablePrecision && notDegrees && invalidSecondsArc)

/-- Modelled from the spec: the characterization claimed for the UTM
heuristic — magnitudes in UTM ranges AND outside valid degree ranges AND
outside valid arc-second ranges. -/
def specLooksLikeUtm (x y : ℚ) : Prop :=
  (100000 ≤ |x| ∧ |x| ≤ 900000) ∧ (0 ≤ y ∧ y ≤ 10000000) ∧
    ¬(-180 ≤ x ∧ x ≤ 180 ∧ -90 ≤ y ∧ y ≤ 90) ∧
    ¬(|x| ≤ 648000 ∧ |y| ≤ 648000)

instance (x y : ℚ) : Decidable (specLooksLikeUtm x y) := by
  unfold specLooksLikeUtm; infer_instance

/-- Per-file input to the batch loop, as the try-block of `batch_process`
observes it: an exception while processing the file, a loader returning
`None`, or a loaded trace-header table. -/
inductive FileLoad where
  | err : FileLoad
  | noData : FileLoad
  | good : List Trace → FileLoad
  deriving Repr, DecidableEq

/-- Result of `batch_process` (lines 2390-2459). -/
structure BatchResult where
  processed : ℕ
  errors : ℕ
  pointOutputs : List (List PointRec)
  lineOutputs : List BatchLine
  combined : Option (List (List PointRec) × List BatchLine)
  deriving Repr, DecidableEq

/-- The per-file loop of `batch_process` (lines 2397-2436): an exception or
a `None` load increments the error count and moves on; a good load saves the
shapefiles, collects produced point/line outputs, and increments the
processed count. -/
def batchGo : List FileLoad → ℕ × ℕ × List (List PointRec) × List BatchLine
  | [] => (0, 0, [], [])
  | .err :: rest =>
    let r := batchGo rest
    (r.1, r.2.1 + 1, r.2.2.1, r.2.2.2)
  | .noData :: rest =>
    let r := batchGo rest
    (r.1, r.2.1 + 1, r.2.2.1, r.2.2.2)
  | .good ts :: rest =>
    let out := saveShapefileForFile ts
    let r := batchGo rest
    (r.1 + 1, r.2.1,
     (match out.1 with | some p => p :: r.2.2.1 | none => r.2.2.1),
     (match out.2 with | some l => l :: r.2.2.2 | none => r.2.2.2))

/-- Embedding of `batch_process` (lines 2390-2459) restricted to its geometry content:
process every file in order, then combine the per-file outputs exactly when
more than one file produced a point output (lines 2440-2448). -/
def batchProcess (files : List FileLoad) : BatchResult :=
  let r := batchGo files
  { processed := r.1, errors := r.2.1,
    pointOutputs := r.2.2.1, lineOutputs := r.2.2.2,
    combined := if r.2.2.1.length > 1 then some (r.2.2.1, r.2.2.2) else none }

/-- C1: for every trace header record with a chosen raw coordinate pair
(x, y), the coordinate normalization applies the source-group scalar as
follows: a scalar greater than 0 multiplies both x and y by the scalar, a
scalar less than 0 divides both by its absolute value, and a scalar equal
to 0 leaves both unchanged (zero treated as multiplier 1); the result then
feeds the unit conversion. -/
theorem scalar_application_cases (i : ℕ) (t : Trace) (x y : ℚ)
    (hs : surviveRaw t = some (x, y)) :
    (0 < t.sourceGroupScalar.getD 1 →
      (processTraceInteractive i t).map (fun r => (r.x, r.y)) =
        some (unitConvert (t.coordinateUnits.getD 2)
          (x * t.sourceGroupScalar.getD 1, y * t.sourceGroupScalar.getD 1))) ∧
    (t.sourceGroupScalar.getD 1 < 0 →
      (processTraceInteractive i t).map (fun r => (r.x, r.y)) =
        some (unitConvert (t.coordinateUnits.getD 2)
          (x / |t.sourceGroupScalar.getD 1|, y / |t.sourceGroupScalar.getD 1|))) ∧
    (t.sourceGroupScalar.getD 1 = 0 →
      (processTraceInteractive i t).map (fun r => (r.x, r.y)) =
        some (unitConvert (t.coordinateUnits.getD 2) (x, y))) := by
  refine ⟨fun h => ?_, fun h => ?_, fun h => ?_⟩
  · simp [processTraceInteractive, hs, applyScalar, h]
  · simp [processTraceInteractive, hs, applyScalar, h, lt_asymm h]
  · simp [processTraceInteractive, hs, applyScalar, h]

/-- Concrete trace used to instantiate C1: raw (100, 200), scalar -10. -/
def trC1 : Trace :=
  { sourceX := some 100, sourceY := some 200, sourceGroupScalar := some (-10) }

/-- Witness for C1 at scalar -10: both coordinates are divided by 10 before
unit conversion. -/
theorem scalar_application_cases_witness :
    (processTraceInteractive 0 trC1).map (fun r => (r.x, r.y)) =
      some (unitConvert (trC1.coordinateUnits.getD 2)
        (100 / |trC1.sourceGroupScalar.getD 1|, 200 / |trC1.sourceGroupScalar.getD 1|)) :=
  (scalar_application_cases 0 trC1 100 200
    (by norm_num [surviveRaw, chooseRawXY, trC1, coordEps])).2.1 (by norm_num [trC1])

/-- C2: for every surviving trace, after scalar application the
coordinate-unit code determines the conversion: code 1 leaves the pair
unchanged, code 2 divides both coordinates by 3600, codes 3 and 4 leave the
pair unchanged, and every unrecognized code falls through unconverted. -/
theorem unit_conversion_cases (i : ℕ) (t : Trace) (x y : ℚ)
    (hs : surviveRaw t = some (x, y)) :
    (t.coordinateUnits.getD 2 = 1 →
      (processTraceInteractive i t).map (fun r => (r.x, r.y)) =
        some (applyScalar (t.sourceGroupScalar.getD 1) (x, y))) ∧
    (t.coordinateUnits.getD 2 = 2 →
      (processTraceInteractive i t).map (fun r => (r.x, r.y)) =
        some ((applyScalar (t.sourceGroupScalar.getD 1) (x, y)).1 / 3600,
              (applyScalar (t.sourceGroupScalar.getD 1) (x, y)).2 / 3600)) ∧
    (t.coordinateUnits.getD 2 = 3 →
      (processTraceInteractive i t).map (fun r => (r.x, r.y)) =
        some (applyScalar (t.sourceGroupScalar.getD 1) (x, y))) ∧
    (t.coordinateUnits.getD 2 = 4 →
      (processTraceInteractive i t).map (fun r => (r.x, r.y)) =
        some (applyScalar (t.sourceGroupScalar.getD 1) (x, y))) ∧
    (t.coordinateUnits.getD 2 ≠ 1 → t.coordinateUnits.getD 2 ≠ 2 →
     t.coordinateUnits.getD 2 ≠ 3 → t.coordinateUnits.getD 2 ≠ 4 →
      (processTraceInteractive i t).map (fun r => (r.x, r.y)) =
        some (applyScalar (t.sourceGroupScalar.getD 1) (x, y))) := by
  refine ⟨fun h => ?_, fun h => ?_, fun h => ?_, fun h => ?_, fun h1 h2 h3 h4 => ?_⟩
  · simp [processTraceInteractive, hs, unitConvert, h]
  · simp [processTraceInteractive, hs, unitConvert, h]
  · simp [processTraceInteractive, hs, unitConvert, h]
  · simp [processTraceInteractive, hs, unitConvert, h]
  · simp [processTraceInteractive, hs, unitConvert, h1, h2, h3, h4]

/-- Concrete trace used to instantiate C2: arc-second units (code 2). -/
def trC2 : Trace :=
  { sourceX := some 7200, sourceY := some 3600, coordinateUnits := some 2 }

/-- Witness for C2 at unit code 2: both coordinates divided by 3600. -/
theorem unit_conversion_cases_witness :
    (processTraceInteractive 0 trC2).map (fun r => (r.x, r.y)) =
      some ((applyScalar (trC2.sourceGroupScalar.getD 1) (7200, 3600)).1 / 3600,
            (applyScalar (trC2.sourceGroupScalar.getD 1) (7200, 3600)).2 / 3600) :=
  (unit_conversion_cases 0 trC2 7200 3600
    (by norm_num [surviveRaw, chooseRawXY, trC2, coordEps])).2.1 (by norm_num [trC2])

/-- C4: under the percentile policy (clipping enabled, std-dev clipping
disabled) with p in [50, 100], the display range is lower bound 0 and upper
bound the p-th percentile of all samples in the linear-interpolation
convention of `np.percentile`; the clip is one-sided and anchored at zero. -/
theorem percentile_range (l : List ℚ) (p k s : ℚ) (h50 : 50 ≤ p) (h100 : p ≤ 100) :
    plotRange l p true false k s = (0, npPercentile l p) := by
  simp [plotRange]

/-- Witness for C4 on a concrete matrix at the 99th percentile. -/
theorem percentile_range_witness :
    (50 : ℚ) ≤ 99 ∧ (99 : ℚ) ≤ 100 ∧
      plotRange [1, 2, 3, 4] 99 true false 2 0 = (0, npPercentile [1, 2, 3, 4] 99) :=
  ⟨by norm_num, by norm_num, percentile_range [1, 2, 3, 4] 99 2 0 (by norm_num) (by norm_num)⟩

lemma processTraceInteractive_eq_none {t : Trace} (h : surviveRaw t = none) (i : ℕ) :
    processTraceInteractive i t = none := by
  simp [processTraceInteractive, h]

lemma shpLoop_eq_nil {l : List (ℕ × Trace)} (h : ∀ p ∈ l, surviveRaw p.2 = none)
    (cu : ℚ) (e : Bool) : shpLoop l cu e = [] := by
  induction l generalizing cu e with
  | nil => rfl
  | cons p rest ih =>
    have hp := h p (List.mem_cons_self p rest)
    simp only [shpLoop, hp]
    exact ih (fun q hq => h q (List.mem_cons_of_mem p hq)) cu e

lemma mem_of_mem_enum {α : Type _} {p : ℕ × α} {l : List α} (h : p ∈ l.enum) : p.2 ∈ l := by
  have := List.enum_map_snd l
  rw [← this]
  exact List.mem_map_of_mem Prod.snd h

/-- C3 counterexample: a single-trace file whose coordinates are present but
zero makes `_create_cdp_shapefile` raise a `ValueError` (modelled as
`Except.error`) instead of returning an empty point sequence. -/
theorem no_survivor_raises_counterexample :
    createCdpShapefile [{ sourceX := some 0, sourceY := some 0 }] =
      Except.error msgZeroCoords := by
  norm_num [createCdpShapefile, List.enum, List.enumFrom, processTraceInteractive,
    surviveRaw, chooseRawXY, coordEps, hasZeroCoords]

/-- C3 (amended): a trace whose chosen raw (x, y) are both within 1e-6 of
zero is skipped, not zero-filled; when zero traces survive, the batch-export
builder returns no point and no line output without raising, while the
interactive builder raises a ValueError. -/
theorem degenerate_coordinates_handling :
    (∀ t : Trace, ∀ x y : ℚ, chooseRawXY t = some (x, y) →
      |x| < coordEps → |y| < coordEps → surviveRaw t = none) ∧
    (∀ ts : List Trace, (∀ t ∈ ts, surviveRaw t = none) →
      saveShapefileForFile ts = (none, none)) ∧
    (∀ ts : List Trace, (∀ t ∈ ts, surviveRaw t = none) →
      ∃ msg, createCdpShapefile ts = Except.error msg) := by
  refine ⟨fun t x y hc hx hy => ?_, fun ts h => ?_, fun ts h => ?_⟩
  · simp [surviveRaw, hc, hx, hy]
  · have : shpLoop ts.enum 2 true = [] :=
      shpLoop_eq_nil (fun p hp => h p.2 (mem_of_mem_enum hp)) 2 true
    simp [saveShapefileForFile, this]
  · have : (ts.enum.filterMap fun p => processTraceInteractive p.1 p.2) = [] := by
      rw [List.filterMap_eq_nil_iff]
      exact fun p hp => processTraceInteractive_eq_none (h p.2 (mem_of_mem_enum hp)) p.1
    refine ⟨if hasZeroCoords ts then msgZeroCoords else msgNoCoords, ?_⟩
    simp [createCdpShapefile, this]

/-- Witness for C3 (amended) on a one-trace table with zero coordinates. -/
theorem degenerate_coordinates_handling_witness :
    surviveRaw { sourceX := some 0, sourceY := some 0 } = none ∧
    saveShapefileForFile [{ sourceX := some 0, sourceY := some 0 }] = (none, none) ∧
    ∃ msg, createCdpShapefile [{ sourceX := some 0, sourceY := some 0 }] =
      Except.error msg :=
  ⟨degenerate_coordinates_handling.1 { sourceX := some 0, sourceY := some 0 } 0 0
      rfl (by norm_num [coordEps]) (by norm_num [coordEps]),
   degenerate_coordinates_handling.2.1 _
      (by intro t ht; simp only [List.mem_singleton] at ht; subst ht
          norm_num [surviveRaw, chooseRawXY, coordEps]),
   degenerate_coordinates_handling.2.2 _
      (by intro t ht; simp only [List.mem_singleton] at ht; subst ht
          norm_num [surviveRaw, chooseRawXY, coordEps])⟩

lemma foldl_min_le_foldl_max {xs : List ℚ} {a b : ℚ} (h : a ≤ b) :
    xs.foldl min a ≤ xs.foldl max b := by
  induction xs generalizing a b with
  | nil => exact h
  | cons y ys ih =>
    exact ih (le_trans (min_le_left a y) (le_trans h (le_max_left b y)))

lemma pMin_le_pMax {l : List ℚ} (h : l ≠ []) : pMin l ≤ pMax l := by
  cases l with
  | nil => exact absurd rfl h
  | cons x xs => exact foldl_min_le_foldl_max le_rfl

/-- C5 counterexample: under the percentile policy on an all-negative
matrix, the computed lower bound 0 exceeds the computed upper bound (the
99th percentile, here -2), violating lower_bound ≤ upper_bound. -/
theorem range_invariant_counterexample :
    (plotRange [-2, -2] 99 true false 2 0).2 < (plotRange [-2, -2] 99 true false 2 0).1 := by
  norm_num [plotRange, npPercentile, pyTrunc, List.mergeSort]

/-- C5 (amended): when clipping is disabled the bounds equal the matrix's
true minimum and maximum and satisfy lower ≤ upper; under the std-dev
policy the bounds equal the clipped matrix's new minimum and maximum and
satisfy lower ≤ upper; under the percentile policy the lower bound is 0, so
lower ≤ upper holds exactly when the p-th percentile is nonnegative (it
fails on all-negative matrices). -/
theorem range_invariant_amended (l : List ℚ) (p k s : ℚ) (hne : l ≠ []) :
    (plotRange l p false false k s = (pMin l, pMax l) ∧ pMin l ≤ pMax l) ∧
    (plotRange l p false true k s =
        (pMin (applyStdDevClipping l k s), pMax (applyStdDevClipping l k s)) ∧
      pMin (applyStdDevClipping l k s) ≤ pMax (applyStdDevClipping l k s)) ∧
    ((plotRange l p true false k s).1 = 0 ∧
      ((plotRange l p true false k s).1 ≤ (plotRange l p true false k s).2 ↔
        0 ≤ npPercentile l p)) := by
  have hcne : applyStdDevClipping l k s ≠ [] := by
    simp [applyStdDevClipping]
    exact hne
  refine ⟨⟨rfl, pMin_le_pMax hne⟩, ⟨rfl, pMin_le_pMax hcne⟩, rfl, Iff.rfl⟩

/-- Witness for C5 (amended) on a concrete two-sample matrix. -/
theorem range_invariant_amended_witness :
    (plotRange [-1, 5] 99 false false 2 0 = (pMin [-1, 5], pMax [-1, 5]) ∧
      pMin [-1, 5] ≤ pMax [-1, 5]) ∧
    (plotRange [-1, 5] 99 false true 2 0 =
        (pMin (applyStdDevClipping [-1, 5] 2 0), pMax (applyStdDevClipping [-1, 5] 2 0)) ∧
      pMin (applyStdDevClipping [-1, 5] 2 0) ≤ pMax (applyStdDevClipping [-1, 5] 2 0)) ∧
    ((plotRange [-1, 5] 99 true false 2 0).1 = 0 ∧
      ((plotRange [-1, 5] 99 true false 2 0).1 ≤ (plotRange [-1, 5] 99 true false 2 0).2 ↔
        0 ≤ npPercentile [-1, 5] 99)) :=
  range_invariant_amended [-1, 5] 99 2 0 (by simp)

lemma le_foldl_min (xs : List ℚ) : ∀ a b : ℚ, b ≤ a → (∀ x ∈ xs, b ≤ x) → b ≤ xs.foldl min a := by
  induction xs with
  | nil => intro a b ha _; exact ha
  | cons y ys ih =>
    intro a b ha hy
    exact ih (min a y) b (le_min ha (hy y (List.mem_cons_self y ys)))
      (fun z hz => hy z (List.mem_cons_of_mem y hz))

lemma foldl_max_le (xs : List ℚ) : ∀ a b : ℚ, a ≤ b → (∀ x ∈ xs, x ≤ b) → xs.foldl max a ≤ b := by
  induction xs with
  | nil => intro a b ha _; exact ha
  | cons y ys ih =>
    intro a b ha hy
    exact ih (max a y) b (max_le ha (hy y (List.mem_cons_self y ys)))
      (fun z hz => hy z (List.mem_cons_of_mem y hz))

lemma le_pMin {l : List ℚ} {b : ℚ} (hne : l ≠ []) (h : ∀ x ∈ l, b ≤ x) : b ≤ pMin l := by
  cases l with
  | nil => exact absurd rfl hne
  | cons x xs =>
    exact le_foldl_min xs x b (h x (List.mem_cons_self x xs))
      (fun z hz => h z (List.mem_cons_of_mem x hz))

lemma pMax_le {l : List ℚ} {b : ℚ} (hne : l ≠ []) (h : ∀ x ∈ l, x ≤ b) : pMax l ≤ b := by
  cases l with
  | nil => exact absurd rfl hne
  | cons x xs =>
    exact foldl_max_le xs x b (h x (List.mem_cons_self x xs))
      (fun z hz => h z (List.mem_cons_of_mem x hz))

/-- C6 counterexample: on the matrix [0, 4] (mean 2, standard deviation 2)
with k = 1, the std-dev-clipped display range's lower bound equals
mean - k*std exactly, so the bounds do not lie strictly within the
clipping interval. -/
theorem std_dev_strictness_counterexample :
    (2 : ℚ) ^ 2 = npVariance [0, 4] ∧
    (plotRange [0, 4] 99 false true 1 2).1 = npMean [0, 4] - 1 * 2 := by
  constructor
  · norm_num [npVariance, npMean]
  · norm_num [plotRange, applyStdDevClipping, npMean, pMin]

/-- C6 (amended): under the std_dev(k) policy (std-dev clipping enabled,
percentile clipping disabled) with standard deviation s (s ≥ 0,
s² = variance) and k in (0, 10], the display range equals the clipped
matrix's new minimum and maximum, which lie within [mean - k*s, mean + k*s]
(non-strictly: the bounds are attained whenever a sample is clipped). -/
theorem std_dev_range_amended (l : List ℚ) (p k s : ℚ) (hne : l ≠ [])
    (hk0 : 0 < k) (hk10 : k ≤ 10) (hs0 : 0 ≤ s) (hs : s ^ 2 = npVariance l) :
    plotRange l p false true k s =
      (pMin (applyStdDevClipping l k s), pMax (applyStdDevClipping l k s)) ∧
    npMean l - k * s ≤ pMin (applyStdDevClipping l k s) ∧
    pMax (applyStdDevClipping l k s) ≤ npMean l + k * s := by
  have hks : 0 ≤ k * s := mul_nonneg hk0.le hs0
  have hlu : npMean l - k * s ≤ npMean l + k * s := by linarith
  have hcne : applyStdDevClipping l k s ≠ [] := by
    simp [applyStdDevClipping]
    exact hne
  refine ⟨rfl, le_pMin hcne ?_, pMax_le hcne ?_⟩
  · intro x hx
    simp only [applyStdDevClipping, List.mem_map] at hx
    obtain ⟨a, _, rfl⟩ := hx
    exact le_min (le_trans (by linarith) (le_max_right a (npMean l - k * s))) hlu
  · intro x hx
    simp only [applyStdDevClipping, List.mem_map] at hx
    obtain ⟨a, _, rfl⟩ := hx
    exact min_le_right _ _

/-- Witness for C6 (amended) on the matrix [0, 4] with k = 1, s = 2. -/
theorem std_dev_range_amended_witness :
    plotRange [0, 4] 99 false true 1 2 =
      (pMin (applyStdDevClipping [0, 4] 1 2), pMax (applyStdDevClipping [0, 4] 1 2)) ∧
    npMean [0, 4] - 1 * 2 ≤ pMin (applyStdDevClipping [0, 4] 1 2) ∧
    pMax (applyStdDevClipping [0, 4] 1 2) ≤ npMean [0, 4] + 1 * 2 :=
  std_dev_range_amended [0, 4] 99 1 2 (by simp) (by norm_num) (by norm_num)
    (by norm_num) (by norm_num [npVariance, npMean])

/-- A degenerate first trace (zero coordinates) carrying a 2001 timestamp. -/
def trC7skip : Trace :=
  { sourceX := some 0, sourceY := some 0, year := some 1, dayOfYear := some 1 }

/-- A surviving trace carrying a 2002 timestamp. -/
def trC7good : Trace :=
  { sourceX := some 7200, sourceY := some 3600, year := some 2, dayOfYear := some 1 }

/-- A file whose first trace is skipped as degenerate but still supplies the
polyline start timestamp. -/
def tblC7 : List Trace := [trC7skip, trC7good, trC7good]

/-- C7 counterexample: with the file's first trace degenerate (skipped), the
polyline start timestamp is "2001-001" (from the skipped trace) while the
first surviving point record's derived timestamp is "2002-001" — the
polyline start timestamp does not come from the first surviving trace. -/
theorem line_timestamps_counterexample :
    ((saveShapefileForFile tblC7).2.map fun l => l.startDT) = some "2001-001" ∧
    ((saveShapefileForFile tblC7).1.map fun recs => (recs.headD default).datetime) =
      some "2002-001" := by
  constructor <;>
  · norm_num [saveShapefileForFile, tblC7, trC7skip, trC7good, List.enum, List.enumFrom,
      shpLoop, surviveRaw, chooseRawXY, coordEps, mkBatchRecord, formatDatetimeFromTrace,
      pyTrunc, applyScalar, unitConvert]
    decide

/-- C7 (amended): whenever the batch path produces a polyline, its start and
end timestamps are the derived timestamps (empty string when absent) of the
file's first and last trace in the full header table, regardless of which
traces survived. -/
theorem line_timestamps_amended (ts : List Trace) (pl : BatchLine)
    (h : (saveShapefileForFile ts).2 = some pl) :
    pl.startDT = (formatDatetimeFromTrace (ts.headD default)).getD "" ∧
    pl.endDT = (formatDatetimeFromTrace (ts.getLastD default)).getD "" := by
  simp only [saveShapefileForFile] at h
  split at h
  · simp at h
  · simp only at h
    split at h
    · rw [Option.some.injEq] at h
      cases h
      exact ⟨rfl, rfl⟩
    · simp at h

/-- Witness for C7 (amended) on the concrete three-trace table. -/
theorem line_timestamps_amended_witness :
    ((saveShapefileForFile tblC7).2.getD default).startDT =
      (formatDatetimeFromTrace (tblC7.headD default)).getD "" ∧
    ((saveShapefileForFile tblC7).2.getD default).endDT =
      (formatDatetimeFromTrace (tblC7.getLastD default)).getD "" :=
  line_timestamps_amended tblC7 ((saveShapefileForFile tblC7).2.getD default)
    (by norm_num [saveShapefileForFile, tblC7, trC7skip, trC7good, List.enum,
      List.enumFrom, shpLoop, surviveRaw, chooseRawXY, coordEps, mkBatchRecord,
      formatDatetimeFromTrace, pyTrunc, applyScalar, unitConvert])

/-- Did the per-file load succeed? -/
def isGoodLoad : FileLoad → Bool
  | .good _ => true
  | _ => false

/-- Did the file load succeed and produce a point output? -/
def producesPoints : FileLoad → Bool
  | .good ts => (saveShapefileForFile ts).1.isSome
  | _ => false

lemma countP_add_countP_not {α : Type _} (p : α → Bool) (l : List α) :
    l.countP p + l.countP (fun a => !p a) = l.length := by
  induction l with
  | nil => rfl
  | cons a rest ih =>
    rw [List.countP_cons, List.countP_cons]
    cases h : p a <;> simp [h] <;> omega

lemma batchGo_processed (files : List FileLoad) :
    (batchGo files).1 = files.countP isGoodLoad := by
  induction files with
  | nil => rfl
  | cons f rest ih =>
    cases f <;> simp [batchGo, ih, isGoodLoad, List.countP_cons]

lemma batchGo_errors (files : List FileLoad) :
    (batchGo files).2.1 = files.countP fun f => !isGoodLoad f := by
  induction files with
  | nil => rfl
  | cons f rest ih =>
    cases f <;> simp [batchGo, ih, isGoodLoad, List.countP_cons]

lemma batchGo_points_length (files : List FileLoad) :
    (batchGo files).2.2.1.length = files.countP producesPoints := by
  induction files with
  | nil => rfl
  | cons f rest ih =>
    cases f with
    | err => simp [batchGo, ih, producesPoints, List.countP_cons]
    | noData => simp [batchGo, ih, producesPoints, List.countP_cons]
    | good ts =>
      rw [List.countP_cons]
      simp only [batchGo]
      rcases hsave : (saveShapefileForFile ts).1 with _ | p <;>
        simp [producesPoints, hsave, ih]

/-- A trace that survives and produces a point record, for the concrete
three-file batch. -/
def trGoodC8 : Trace := { sourceX := some 7200, sourceY := some 3600 }

/-- The three-file batch of the claim: file 2 raises a decode failure. -/
def filesC8 : List FileLoad := [.good [trGoodC8], .err, .good [trGoodC8]]

/-- C8: per-file failures increment the error count and never abort the
batch (processed + errors covers every file, processed counts exactly the
successful loads); a combined output exists exactly when at least two files
produced point data; and on the concrete batch of 3 files whose second file
raises a decode failure, processed = 2, errors = 1, with a combined output. -/
theorem batch_error_isolation :
    (∀ files : List FileLoad,
      (batchProcess files).processed = files.countP isGoodLoad ∧
      (batchProcess files).errors = (files.countP fun f => !isGoodLoad f) ∧
      (batchProcess files).processed + (batchProcess files).errors = files.length ∧
      ((batchProcess files).combined.isSome ↔ 2 ≤ files.countP producesPoints)) ∧
    (batchProcess filesC8).processed = 2 ∧
    (batchProcess filesC8).errors = 1 ∧
    (batchProcess filesC8).combined.isSome := by
  have main : ∀ files : List FileLoad,
      (batchProcess files).processed = files.countP isGoodLoad ∧
      (batchProcess files).errors = (files.countP fun f => !isGoodLoad f) ∧
      (batchProcess files).processed + (batchProcess files).errors = files.length ∧
      ((batchProcess files).combined.isSome ↔ 2 ≤ files.countP producesPoints) := by
    intro files
    refine ⟨batchGo_processed files, batchGo_errors files, ?_, ?_⟩
    · simp only [batchProcess, batchGo_processed, batchGo_errors]
      exact countP_add_countP_not isGoodLoad files
    · have hlen := batchGo_points_length files
      simp only [batchProcess]
      split <;> simp_all <;> omega
  refine ⟨main, ?_, ?_, ?_⟩
  · exact (main filesC8).1.trans (by decide)
  · exact (main filesC8).2.1.trans (by decide)
  · rw [(main filesC8).2.2.2]
    norm_num [filesC8, List.countP_cons, producesPoints, trGoodC8, saveShapefileForFile,
      List.enum, List.enumFrom, shpLoop, surviveRaw, chooseRawXY, coordEps]

/-- C9 counterexample: the pair (150000, 100) lies inside the valid
arc-second range (both magnitudes at most 648000), so the claimed
characterization is false there — yet the heuristic returns true, because
its first disjunct only checks the UTM magnitude ranges. -/
theorem utm_heuristic_counterexample :
    isUtmCoordinates 150000 100 = true ∧ ¬ specLooksLikeUtm 150000 100 := by
  constructor
  · simp only [isUtmCoordinates, Bool.or_eq_true, Bool.and_eq_true, decide_eq_true_eq]
    left
    constructor <;> constructor <;> norm_num
  · intro h
    exact h.2.2.2 ⟨by norm_num, by norm_num⟩

/-- C9 (amended): the heuristic returns true exactly when the magnitudes lie
in the UTM easting/northing ranges (|x| in [1e5, 9e5] and y in [0, 1e7]),
OR when |x| > 1e4 and y > 1e4, both truncated magnitudes print with at
least 5 characters, the pair is outside valid degree ranges, and the pair is
outside valid arc-second ranges (|x| > 648000 or |y| > 648000). -/
theorem utm_heuristic_amended (x y : ℚ) :
    isUtmCoordinates x y = true ↔
      ((100000 ≤ |x| ∧ |x| ≤ 900000) ∧ (0 ≤ y ∧ y ≤ 10000000)) ∨
      ((|x| > 10000 ∧ y > 10000) ∧
       ((intStr (pyTrunc |x|)).length ≥ 5 ∧ (intStr (pyTrunc y)).length ≥ 5) ∧
       ¬(-180 ≤ x ∧ x ≤ 180 ∧ -90 ≤ y ∧ y ≤ 90) ∧
       (|x| > 648000 ∨ |y| > 648000)) := by
  simp only [isUtmCoordinates, Bool.or_eq_true, Bool.and_eq_true, decide_eq_true_eq,
    Bool.not_eq_true', decide_eq_false_iff_not, ge_iff_le]
  tauto

lemma shpLoop_false_eq (l : List (ℕ × Trace)) (cu : ℚ) :
    shpLoop l cu false = recordsWithUniformUnits cu l := by
  induction l with
  | nil => rfl
  | cons p rest ih =>
    obtain ⟨i, t⟩ := p
    cases hs : surviveRaw t with
    | none =>
      simp only [shpLoop, hs]
      rw [ih]
      simp [recordsWithUniformUnits, List.filterMap_cons, hs]
    | some xy =>
      obtain ⟨x, y⟩ := xy
      simp only [shpLoop, hs, Bool.false_eq_true, if_false]
      rw [ih]
      simp [recordsWithUniformUnits, List.filterMap_cons, hs]

lemma shpLoop_first_survivor (l : List (ℕ × Trace)) (cu : ℚ) (j : ℕ) (t₀ : Trace)
    (h : l.find? (fun p => (surviveRaw p.2).isSome) = some (j, t₀)) :
    shpLoop l cu true = recordsWithUniformUnits (t₀.coordinateUnits.getD 2) l := by
  induction l generalizing cu with
  | nil => simp at h
  | cons p rest ih =>
    obtain ⟨i, t⟩ := p
    rw [List.find?_cons] at h
    cases hs : surviveRaw t with
    | none =>
      have hfalse : ((surviveRaw (i, t).2).isSome) = false := by simp [hs]
      rw [hfalse] at h
      simp only [shpLoop, hs]
      rw [ih cu h]
      simp [recordsWithUniformUnits, List.filterMap_cons, hs]
    | some xy =>
      obtain ⟨x, y⟩ := xy
      have htrue : ((surviveRaw (i, t).2).isSome) = true := by simp [hs]
      rw [htrue] at h
      rw [Option.some.injEq] at h
      have ht : t₀ = t := congrArg Prod.snd h.symm
      subst ht
      simp only [shpLoop, hs, if_true]
      rw [shpLoop_false_eq]
      simp [recordsWithUniformUnits, List.filterMap_cons, hs]

/-- C10: in the batch export path, every emitted point record is converted
with the CoordinateUnits value of the file's first surviving trace
(defaulting to 2, arc-seconds, when that field is absent); the
CoordinateUnits of later traces are ignored, so the output coincides with
the records computed with that single unit code throughout. -/
theorem batch_uniform_units (ts : List Trace) (j : ℕ) (t₀ : Trace)
    (h : ts.enum.find? (fun p => (surviveRaw p.2).isSome) = some (j, t₀)) :
    (saveShapefileForFile ts).1 =
      some (recordsWithUniformUnits (t₀.coordinateUnits.getD 2) ts.enum) := by
  have hrecs := shpLoop_first_survivor ts.enum 2 j t₀ h
  have hne : recordsWithUniformUnits (t₀.coordinateUnits.getD 2) ts.enum ≠ [] := by
    intro hnil
    rw [recordsWithUniformUnits, List.filterMap_eq_nil_iff] at hnil
    have hmem := List.mem_of_find?_eq_some h
    have hpred := List.find?_some h
    have hcontra := hnil (j, t₀) hmem
    cases hs : surviveRaw t₀ with
    | none => rw [hs] at hpred; simp at hpred
    | some xy =>
      obtain ⟨x, y⟩ := xy
      rw [hs] at hcontra
      simp at hcontra
  simp only [saveShapefileForFile, hrecs]
  rw [if_neg (by simpa [List.isEmpty_iff] using hne)]

/-- First trace of the C10 witness file: length units (code 1). -/
def trC10a : Trace :=
  { sourceX := some 3600, sourceY := some 3600, coordinateUnits := some 1 }

/-- Second trace of the C10 witness file: decimal degrees (code 3),
ignored by the batch path. -/
def trC10b : Trace :=
  { sourceX := some 7200, sourceY := some 7200, coordinateUnits := some 3 }

/-- Witness for C10: the two-trace file is converted entirely with the
first surviving trace's unit code. -/
theorem batch_uniform_units_witness :
    (saveShapefileForFile [trC10a, trC10b]).1 =
      some (recordsWithUniformUnits (trC10a.coordinateUnits.getD 2)
        ([trC10a, trC10b]).enum) :=
  batch_uniform_units [trC10a, trC10b] 0 trC10a
    (by norm_num [List.enum, List.enumFrom, List.find?_cons, surviveRaw, chooseRawXY,
      coordEps, trC10a, trC10b])

end SegyViewer
